import Mathlib

/-!
Shallow embedding of the rflex_backend license/device entitlement engine.

Sources embedded: `app/models/license.py`, `app/models/device_activation.py`,
`app/models/plan.py`, `app/models/validation_log.py`,
`app/services/license_service.py`, `app/services/device_service.py`,
`app/core/security.py` (device-token issue/verify),
`app/api/v1/routes/public.py` (the validate route), and
`app/utils/license_code.py`.

Modelling conventions:
- timestamps are `Int` seconds; `timedelta(days = d)` is `d * 86400` and
  `timedelta(hours = h)` is `h * 3600`; `datetime.utcnow()` becomes an explicit
  `now : Int` argument;
- the SQLAlchemy session becomes an explicit `Db` value (lists of rows); a
  query `.filter(col == v).first()` becomes `List.find?`; committing a mutated
  row becomes replacing it in the list; raising `ValueError` becomes an
  `Except.error` result paired with the unchanged `Db`;
- JWT signing is modelled symbolically: a token carries its claims and the
  secret it was signed with; `jwt.decode` checks the secret and the `exp`
  claim, which is exactly the information the source's checks depend on;
- Python strings are Lean `String`s, except in `license_code.lean`-style
  utilities where `List Char` is used for the character-level operations.
-/

namespace RFlex

/-- Status values of a license, `LicenseStatus` in `app/models/license.py`. -/
inductive LicenseStatus where
  | inactive
  | active
  | suspended
  | expired
deriving DecidableEq

/-- String carried by the Python `str`-valued enum member (`status.value`). -/
def LicenseStatus.value : LicenseStatus → String
  | .inactive => "inactive"
  | .active => "active"
  | .suspended => "suspended"
  | .expired => "expired"

/-- Row of the `plans` table, `app/models/plan.py` (capacity-relevant columns;
pricing and description columns are carried nowhere in the claims and omitted). -/
structure Plan where
  id : String
  name : String
  max_devices : Int
deriving DecidableEq

/-- Row of the `device_activations` table, `app/models/device_activation.py`.
Field defaults mirror the column defaults (`is_active=True`, `is_revoked=False`,
nullable columns default to `none`). -/
structure DeviceActivation where
  id : String
  license_id : String
  device_id : String
  device_name : Option String := none
  device_manufacturer : Option String := none
  device_model : Option String := none
  android_version : Option String := none
  app_version : Option String := none
  hardware_info : Option String := none
  activated_at : Int := 0
  last_validated_at : Option Int := none
  is_active : Bool := true
  is_revoked : Bool := false
  revoked_at : Option Int := none
  revoke_reason : Option String := none
deriving DecidableEq

/-- Row of the `licenses` table, `app/models/license.py`. The ORM relationship
attributes `plan` and `device_activations` are embedded directly, as the model
methods read them (`self.plan`, `self.device_activations`). -/
structure License where
  id : String
  code : String
  company_id : String := ""
  plan_id : String := ""
  status : LicenseStatus := .inactive
  expires_at : Int
  notes : Option String := none
  plan : Plan
  device_activations : List DeviceActivation := []
deriving DecidableEq

/-- Method `License.is_valid` (`app/models/license.py` lines 100-111):
false when status is not ACTIVE, false when `expires_at < now`, else true. -/
def License.is_valid (l : License) (now : Int) : Bool :=
  if l.status ≠ LicenseStatus.active then false
  else if l.expires_at < now then false
  else true

/-- Method `License.is_expired` (`app/models/license.py` lines 113-120):
`expires_at < now`. This is the method body, i.e. the value of the call
`license.is_expired()`. -/
def License.is_expired (l : License) (now : Int) : Bool :=
  decide (l.expires_at < now)

/-- Value of the Python expression `license.is_expired` as it actually appears,
uncalled, at `app/services/device_service.py` lines 50 and 165 and
`app/services/license_service.py` lines 146 and 171.  The attribute access
yields the bound method object without invoking it, and in a boolean context a
bound method is always truthy, so the expression evaluates to `True` for every
license.  (The invoked form `license.is_expired()` is `License.is_expired`
above; no call site in the repository invokes it.) -/
def License.is_expired_attr (_l : License) : Bool := true

/-- Method `License.get_active_devices_count`: number of relationship rows with
`is_active` set. -/
def License.get_active_devices_count (l : License) : Nat :=
  (l.device_activations.filter (fun d => d.is_active)).length

/-- Method `DeviceActivation.revoke` (`app/models/device_activation.py`
lines 134-144). -/
def DeviceActivation.revoke (a : DeviceActivation) (reason : Option String)
    (now : Int) : DeviceActivation :=
  { a with is_active := false, is_revoked := true, revoked_at := some now,
           revoke_reason := reason }

/-- Method `DeviceActivation.reactivate` (`app/models/device_activation.py`
lines 146-153). -/
def DeviceActivation.reactivate (a : DeviceActivation) : DeviceActivation :=
  { a with is_active := true, is_revoked := false, revoked_at := none,
           revoke_reason := none }

/-- Method `DeviceActivation.update_validation`: stamps `last_validated_at`. -/
def DeviceActivation.update_validation (a : DeviceActivation) (now : Int) :
    DeviceActivation :=
  { a with last_validated_at := some now }

/-- The relevant tables of the entitlement store (the SQLAlchemy session's
visible state). -/
structure Db where
  licenses : List License
  activations : List DeviceActivation
deriving DecidableEq

/-- Query `db.query(License).filter(License.code == code).first()`. -/
def Db.find_license_by_code (db : Db) (code : String) : Option License :=
  db.licenses.find? (fun l => l.code == code)

/-- Query `db.query(License).filter(License.id == i).first()`. -/
def Db.find_license_by_id (db : Db) (i : String) : Option License :=
  db.licenses.find? (fun l => l.id == i)

/-- Query `db.query(License).filter(License.id == v).first()` where `v` may be
Python `None` (a NULL comparison matches no row). -/
def Db.find_license_by_optional_id (db : Db) (i? : Option String) : Option License :=
  match i? with
  | some i => db.find_license_by_id i
  | none => none

/-- Query `db.query(DeviceActivation).filter(DeviceActivation.device_id == d).first()`. -/
def Db.find_activation_by_device_id (db : Db) (d : String) : Option DeviceActivation :=
  db.activations.find? (fun a => a.device_id == d)

/-- Commit of a mutation to the (unique-`device_id`) activation row: the stored
row is replaced by the mutated object. -/
def Db.update_activation (db : Db) (d : String) (a : DeviceActivation) : Db :=
  { db with activations := db.activations.map (fun x => if x.device_id = d then a else x) }

/-- Function `LicenseService.check_availability` (`license_service.py`): true
when the plan is the unlimited sentinel `-1`, else when the active-device count
is strictly below `max_devices`. -/
def check_availability (license : License) : Bool :=
  if license.plan.max_devices = -1 then true
  else decide ((license.get_active_devices_count : Int) < license.plan.max_devices)

/-- Function `LicenseService.get_available_slots`: `-1` for the unlimited
sentinel, else `max 0 (max_devices - active_count)`. -/
def get_available_slots (license : License) : Int :=
  if license.plan.max_devices = -1 then -1
  else max 0 (license.plan.max_devices - license.get_active_devices_count)

/-- Function `LicenseService.renew_license` (`license_service.py` lines
132-158).  Note the guard is the uncalled attribute `license.is_expired`
(`License.is_expired_attr`), not the method call. -/
def renew_license (license : License) (days : Int) (now : Int) : License :=
  let l1 :=
    if license.is_expired_attr then { license with expires_at := now + days * 86400 }
    else { license with expires_at := license.expires_at + days * 86400 }
  if l1.status = LicenseStatus.expired ∨ l1.status = LicenseStatus.suspended then
    { l1 with status := LicenseStatus.active }
  else l1

/-- Function `LicenseService.suspend_license`. -/
def suspend_license (license : License) : License :=
  { license with status := LicenseStatus.suspended }

/-- Function `LicenseService.activate_license` (`license_service.py` lines
168-177).  The guard is again the uncalled attribute `license.is_expired`. -/
def activate_license (license : License) : Except String License :=
  if license.is_expired_attr then
    Except.error "Não é possível ativar licença expirada. Renove primeiro."
  else Except.ok { license with status := LicenseStatus.active }

/-- Claims carried by a JWT issued by `app/core/security.py`.  Only the claims
the device-token path reads are carried. -/
structure TokenClaims where
  sub : String
  type : String
  license_id : Option String := none
  exp : Int
  iat : Int := 0
deriving DecidableEq

/-- Symbolic signed JWT: the claims plus the secret used at signing time. -/
structure Token where
  claims : TokenClaims
  signed_with : String
deriving DecidableEq

/-- Function `decode_access_token`: `jwt.decode` succeeds when the signature
matches the configured secret and the `exp` claim is still in the future,
returning the payload; otherwise the `JWTError` handler returns `None`. -/
def decode_access_token (secret : String) (now : Int) (t : Token) : Option TokenClaims :=
  if t.signed_with = secret ∧ now < t.claims.exp then some t.claims else none

/-- Payload dictionary returned by `verify_device_token`. -/
structure TokenData where
  device_id : String
  license_id : Option String
deriving DecidableEq

/-- Function `verify_device_token` (`app/core/security.py`): decode, reject a
payload whose `type` claim is not `"device"`, and project out `sub` and
`license_id`. -/
def verify_device_token (secret : String) (now : Int) (t : Token) : Option TokenData :=
  match decode_access_token secret now t with
  | none => none
  | some payload =>
    if payload.type ≠ "device" then none
    else some { device_id := payload.sub, license_id := payload.license_id }

/-- Function `create_device_token`: a `type="device"` token for
`(device_id, license_id)` expiring 90 days out, signed with the secret. -/
def create_device_token (secret : String) (now : Int)
    (device_id license_id : String) : Token :=
  { claims := { sub := device_id, type := "device", license_id := some license_id,
                exp := now + 90 * 86400, iat := now },
    signed_with := secret }

/-- Pydantic schema `DeviceActivationRequest` (`app/schemas/device.py`). -/
structure DeviceActivationRequest where
  license_code : String
  device_id : String
  device_name : Option String := none
  device_manufacturer : Option String := none
  device_model : Option String := none
  android_version : Option String := none
  app_version : Option String := none
  hardware_info : Option String := none
deriving DecidableEq

/-- Metadata overwrite performed on the reactivation path of
`DeviceService.activate_device`. -/
def apply_request_metadata (a : DeviceActivation) (req : DeviceActivationRequest) :
    DeviceActivation :=
  { a with device_name := req.device_name,
           device_manufacturer := req.device_manufacturer,
           device_model := req.device_model,
           android_version := req.android_version,
           app_version := req.app_version,
           hardware_info := req.hardware_info }

/-- The `DeviceActivation(...)` constructor call on the new-device path of
`DeviceService.activate_device`; `fresh_id` is the generated row id and the
unset columns take their declared defaults. -/
def new_activation (license_id : String) (req : DeviceActivationRequest)
    (now : Int) (fresh_id : String) : DeviceActivation :=
  { id := fresh_id, license_id := license_id, device_id := req.device_id,
    device_name := req.device_name,
    device_manufacturer := req.device_manufacturer,
    device_model := req.device_model,
    android_version := req.android_version,
    app_version := req.app_version,
    hardware_info := req.hardware_info,
    activated_at := now, is_active := true }

/-- Function `DeviceService.activate_device` (`device_service.py` lines
20-107).  A raised `ValueError` becomes `Except.error` paired with the
unchanged store.  Note the third check is the uncalled attribute
`license.is_expired`, which is truthy for every license. -/
def activate_device (secret : String) (db : Db) (req : DeviceActivationRequest)
    (now : Int) (fresh_id : String) :
    Except String (DeviceActivation × Token) × Db :=
  match db.find_license_by_code req.license_code with
  | none => (Except.error "Licença não encontrada", db)
  | some license =>
    if license.status ≠ LicenseStatus.active then
      (Except.error ("Licença não está ativa. Status: " ++ license.status.value), db)
    else if license.is_expired_attr then
      (Except.error "Licença expirada", db)
    else if !(check_availability license) then
      (Except.error "Limite de dispositivos atingido", db)
    else
      match db.find_activation_by_device_id req.device_id with
      | some existing =>
        if existing.license_id = license.id ∧ existing.is_active then
          (Except.ok (existing, create_device_token secret now req.device_id license.id), db)
        else if existing.license_id ≠ license.id then
          (Except.error "Dispositivo já ativado em outra licença", db)
        else
          let updated := apply_request_metadata existing.reactivate req
          (Except.ok (updated, create_device_token secret now req.device_id license.id),
           db.update_activation req.device_id updated)
      | none =>
        let activation := new_activation license.id req now fresh_id
        (Except.ok (activation, create_device_token secret now req.device_id license.id),
         { db with activations := db.activations ++ [activation] })

/-- Triple returned by `DeviceService.validate_device`. -/
structure ValidationOutcome where
  ok : Bool
  message : String
  license : Option License
deriving DecidableEq

/-- The `grace_period_end` local of `validate_device`:
`last_validated_at + timedelta(hours=grace_period_hours)` when
`last_validated_at` is set, else `None`. -/
def grace_period_end (grace_period_hours : Int) (a : DeviceActivation) : Option Int :=
  match a.last_validated_at with
  | some t => some (t + grace_period_hours * 3600)
  | none => none

/-- Function `DeviceService.validate_device` (`device_service.py` lines
109-179), returning the outcome triple and the post-call store.  The expiry
guard is the uncalled attribute `license.is_expired`, so the final
`"Licença válida"` branch of the source is unreachable. -/
def validate_device (secret : String) (grace_period_hours : Int) (db : Db)
    (device_id : String) (activation_token : Token) (is_offline : Bool)
    (now : Int) : ValidationOutcome × Db :=
  match verify_device_token secret now activation_token with
  | none => ({ ok := false, message := "Token de ativação inválido", license := none }, db)
  | some token_data =>
    if token_data.device_id ≠ device_id then
      ({ ok := false, message := "Token não pertence a este dispositivo", license := none }, db)
    else
      match db.find_activation_by_device_id device_id with
      | none => ({ ok := false, message := "Dispositivo não encontrado", license := none }, db)
      | some activation =>
        if !activation.is_active || activation.is_revoked then
          ({ ok := false, message := "Dispositivo revogado", license := none }, db)
        else
          match db.find_license_by_optional_id token_data.license_id with
          | none => ({ ok := false, message := "Licença não encontrada", license := none }, db)
          | some license =>
            if license.status ≠ LicenseStatus.active then
              ({ ok := false,
                 message := "Licença não está ativa. Status: " ++ license.status.value,
                 license := some license }, db)
            else
              let gpe := grace_period_end grace_period_hours activation
              if license.is_expired_attr then
                if is_offline &&
                    (match gpe with | some g => decide (now < g) | none => false) then
                  ({ ok := true, message := "Válido (período de tolerância offline)",
                     license := some license },
                   db.update_activation device_id (activation.update_validation now))
                else
                  ({ ok := false, message := "Licença expirada", license := some license }, db)
              else
                ({ ok := true, message := "Licença válida", license := some license },
                 db.update_activation device_id (activation.update_validation now))

/-- Function `DeviceService.revoke_device`: unconditional revoke and commit. -/
def revoke_device (db : Db) (activation : DeviceActivation)
    (reason : Option String) (now : Int) : DeviceActivation × Db :=
  let a := activation.revoke reason now
  (a, db.update_activation activation.device_id a)

/-- Function `DeviceService.reactivate_device` (`device_service.py` lines
248-265): re-check capacity on the owning license, raise before any mutation
when the license exists and has no free seat, else reactivate and commit. -/
def reactivate_device (db : Db) (activation : DeviceActivation) :
    Except String DeviceActivation × Db :=
  match db.find_license_by_id activation.license_id with
  | some license =>
    if !(check_availability license) then
      (Except.error "Limite de dispositivos atingido", db)
    else
      let a := activation.reactivate
      (Except.ok a, db.update_activation activation.device_id a)
  | none =>
    let a := activation.reactivate
    (Except.ok a, db.update_activation activation.device_id a)

/-- Enum `ValidationStatus` (`app/models/validation_log.py`). -/
inductive ValidationStatus where
  | success
  | failed
  | grace_period
deriving DecidableEq

/-- Row of the `validation_logs` table (`app/models/validation_log.py`). -/
structure ValidationLog where
  device_activation_id : String
  status : ValidationStatus
  ip_address : Option String
  user_agent : Option String
  is_offline : Bool
  error_message : Option String
  validated_at : Int
  response_time_ms : Option String
deriving DecidableEq

/-- Function `DeviceService.log_validation` (`device_service.py` lines
267-307): appends one row to the append-only log table.  The source stores
`str(response_time_ms) if response_time_ms else None`, so a zero or absent
latency is stored as NULL. -/
def log_validation (logs : List ValidationLog) (activation : DeviceActivation)
    (status : ValidationStatus) (ip_address : Option String)
    (user_agent : Option String) (is_offline : Bool)
    (error_message : Option String) (now : Int)
    (response_time_ms : Option Int) : List ValidationLog :=
  logs ++ [{ device_activation_id := activation.id, status := status,
             ip_address := ip_address, user_agent := user_agent,
             is_offline := is_offline, error_message := error_message,
             validated_at := now,
             response_time_ms :=
               match response_time_ms with
               | some t => if t ≠ 0 then some (toString t) else none
               | none => none }]

/-- Pydantic schema `DeviceValidationRequest` (`app/schemas/device.py`). -/
structure DeviceValidationRequest where
  activation_token : Token
  device_id : String
  is_offline : Bool := false

/-- Pydantic schema `DeviceValidationResponse`, restricted to the decision
fields `valid` and `message`; the display-only enrichment fields the route adds
on success (`license_expires_at`, `company_name`, `plan_name`,
`grace_period_until`) depend on the Company model and affect no claim, and are
omitted from the embedding. -/
structure DeviceValidationResponse where
  valid : Bool
  message : String
deriving DecidableEq

/-- Prefix test over character lists (`s` starts with `pat`). -/
def starts_with : List Char → List Char → Bool
  | _, [] => true
  | [], _ :: _ => false
  | c :: cs, p :: ps => c == p && starts_with cs ps

/-- Substring test over character lists (Python's `pat in s`). -/
def has_substring : List Char → List Char → Bool
  | [], pat => pat.isEmpty
  | c :: cs, pat => starts_with (c :: cs) pat || has_substring cs pat

/-- Check `"tolerância" in message.lower()` performed by the validate route
(`Char.toLower` agrees with Python's `str.lower` on every character the
outcome messages contain). -/
def message_mentions_tolerancia (s : String) : Bool :=
  has_substring (s.toList.map Char.toLower) "tolerância".toList

/-- Route handler `POST /public/validate` (`app/api/v1/routes/public.py` lines
60-121): run `DeviceService.validate_device`, look the activation up again, and
only when an activation row exists write one `ValidationLog` via
`DeviceService.log_validation`; always return the outcome as the response.
`response_time_ms` is the measured latency. -/
def public_validate_device (secret : String) (grace_period_hours : Int)
    (db : Db) (logs : List ValidationLog) (req : DeviceValidationRequest)
    (ip_address : Option String) (user_agent : Option String) (now : Int)
    (response_time_ms : Int) : DeviceValidationResponse × Db × List ValidationLog :=
  let r := validate_device secret grace_period_hours db req.device_id
             req.activation_token req.is_offline now
  let outcome := r.1
  let db1 := r.2
  let logs1 :=
    match db1.find_activation_by_device_id req.device_id with
    | some activation =>
      let st0 := if outcome.ok then ValidationStatus.success else ValidationStatus.failed
      let st := if message_mentions_tolerancia outcome.message then
                  ValidationStatus.grace_period
                else st0
      log_validation logs activation st ip_address user_agent req.is_offline
        (if outcome.ok then none else some outcome.message) now (some response_time_ms)
    | none => logs
  ({ valid := outcome.ok, message := outcome.message }, db1, logs1)

/-- Alphabet of `generate_license_code` (`app/utils/license_code.py`): A-Z
minus the visually ambiguous I and O, plus the digits 2-9. -/
def license_code_chars : List Char := "ABCDEFGHJKLMNPQRSTUVWXYZ23456789".toList

/-- The chunking comprehension of `format_license_code`:
`[code[i:i+n] for i in range(0, len(code), n)]`.  A zero step raises in the
source and is mapped to the empty chunk list; every call uses the default 4. -/
def chunk_every : Nat → List Char → List (List Char)
  | _, [] => []
  | 0, _ :: _ => []
  | n + 1, c :: cs => (c :: cs).take (n + 1) :: chunk_every (n + 1) ((c :: cs).drop (n + 1))
termination_by _n l => l.length
decreasing_by
  simp [List.length_drop]
  omega

/-- The `"-".join(parts)` of `format_license_code`. -/
def join_hyphen : List (List Char) → List Char
  | [] => []
  | [p] => p
  | p :: q :: ps => p ++ '-' :: join_hyphen (q :: ps)

/-- Function `format_license_code` (`app/utils/license_code.py` lines 27-41),
on the character list of the code. -/
def format_license_code (code : List Char) (format_every : Nat := 4) : List Char :=
  join_hyphen (chunk_every format_every code)

/-- Function `sanitize_license_code` (`app/utils/license_code.py` lines 65-75):
`code.replace("-", "").replace(" ", "").upper()`. -/
def sanitize_license_code (code : List Char) : List Char :=
  (((code.filter (fun c => c != '-')).filter (fun c => c != ' ')).map Char.toUpper)

/-! Concrete fixtures used by the evaluation theorems and witnesses. -/

/-- Sample finite-capacity plan (5 seats, like the Starter tier). -/
def sample_plan : Plan := { id := "P1", name := "RFlex Starter", max_devices := 5 }

/-- Sample 32-character license code over the generator's alphabet. -/
def sample_code : String := "ABCDEFGHJKLMNPQRSTUVWXYZ23456789"

/-- Active, never-validated activation of device `dev1` on license `L1`. -/
def act1 : DeviceActivation := { id := "A1", license_id := "L1", device_id := "dev1" }

/-- Active license `L1` expiring 30 days after epoch, holding `act1`. -/
def lic1 : License :=
  { id := "L1", code := sample_code, status := .active, expires_at := 30 * 86400,
    plan := sample_plan, device_activations := [act1] }

/-- Store holding `lic1` and `act1`. -/
def db1 : Db := { licenses := [lic1], activations := [act1] }

/-- Well-formed device token for `(dev1, L1)` signed with secret `"s"`,
expiring 90 days after epoch. -/
def tok1 : Token :=
  { claims := { sub := "dev1", type := "device", license_id := some "L1",
                exp := 90 * 86400 },
    signed_with := "s" }

/-- Claim C8, counterexample: at the boundary instant `now = expires_at`
(license Active, `expires_at = 0`, observed at `now = 0`) the source's
`is_valid()` returns true, but the claimed characterisation
`status == Active AND expires_at > now` is false, so the claimed equivalence
fails.  The code tests `expires_at < now`, making the license valid at the
exact expiry instant. -/
theorem is_valid_boundary_counterexample :
    ¬ (License.is_valid
        { id := "L8", code := sample_code, status := .active, expires_at := 0,
          plan := sample_plan } 0 = true ↔
       (({ id := "L8", code := sample_code, status := .active, expires_at := 0,
           plan := sample_plan } : License).status = LicenseStatus.active ∧
        0 < ({ id := "L8", code := sample_code, status := .active, expires_at := 0,
               plan := sample_plan } : License).expires_at)) := by
  decide

/-- Claim C8, amended: for every license and observation time, `is_valid()`
returns true iff the status is Active and `expires_at` has not yet passed
(`now ≤ expires_at`, i.e. not strictly in the past); the predicate is a
function of `status` and `expires_at` only, never stored. -/
theorem is_valid_iff_active_and_not_past (l : License) (now : Int) :
    l.is_valid now = true ↔
      (l.status = LicenseStatus.active ∧ now ≤ l.expires_at) := by
  simp only [License.is_valid]
  split_ifs with h1 h2 <;> simp_all

/-- Claim C3 (code bug): `activate_license` raises the invalid-transition
error for every license — including this one, whose `expires_at` lies a full
day in the future of the scenario's `now = 0` (second conjunct: the license is
genuinely not expired) — because its guard reads the uncalled, always-truthy
`license.is_expired` attribute instead of calling the method. -/
theorem activate_license_always_errors :
    activate_license
        { id := "L3", code := sample_code, status := .inactive,
          expires_at := 86400, plan := sample_plan } =
      Except.error "Não é possível ativar licença expirada. Renove primeiro." ∧
    License.is_expired
        { id := "L3", code := sample_code, status := .inactive,
          expires_at := 86400, plan := sample_plan } 0 = false := by
  exact ⟨rfl, by decide⟩

/-- Claim C4 (code bug): renewing a not-yet-expired license (Active,
`expires_at` five days out, `now = 0`, `days = 15`) resets `expires_at` to
`now + 15` days instead of extending it to `old_expires_at + 15` days, because
the expired/not-expired branch reads the uncalled, always-truthy
`license.is_expired` attribute. -/
theorem renew_nonexpired_resets_expiry :
    License.is_expired
        { id := "L4", code := sample_code, status := .active,
          expires_at := 5 * 86400, plan := sample_plan } 0 = false ∧
    (renew_license
        { id := "L4", code := sample_code, status := .active,
          expires_at := 5 * 86400, plan := sample_plan } 15 0).expires_at =
      15 * 86400 ∧
    (renew_license
        { id := "L4", code := sample_code, status := .active,
          expires_at := 5 * 86400, plan := sample_plan } 15 0).expires_at ≠
      5 * 86400 + 15 * 86400 := by
  decide

/-- Claim C1 (code bug): a device holding a verifying, matching token, with an
active non-revoked activation, on an Active license expiring 30 days in the
future (second conjunct: the license is genuinely not expired at `now = 0`),
is rejected by `validate_device` with `ok = false` and message
`"Licença expirada"`, and `last_validated_at` is not updated — instead of the
claimed success with reason Valid — because the expiry guard reads the
uncalled, always-truthy `license.is_expired` attribute. -/
theorem validate_rejects_fresh_valid_license :
    License.is_expired lic1 0 = false ∧
    validate_device "s" 72 db1 "dev1" tok1 false 0 =
      ({ ok := false, message := "Licença expirada", license := some lic1 }, db1) := by
  decide

/-- Claim C6 (code bug): device `dev6` is bound to license `LA`; activating it
against the code of the different, Active, future-expiry, free-capacity
license `LB` does fail and mutates nothing, but with the error
`"Licença expirada"` rather than the claimed already-activated-elsewhere
error, because the uncalled `license.is_expired` attribute aborts every
activation before the cross-license check is reached. -/
theorem cross_license_activation_error_mismatch :
    (activate_device "s"
        { licenses :=
            [{ id := "LA", code := sample_code, status := .active,
               expires_at := 30 * 86400, plan := sample_plan,
               device_activations :=
                 [{ id := "A6", license_id := "LA", device_id := "dev6" }] },
             { id := "LB", code := "BBBBBBBBBBBBBBBBBBBBBBBBBBBBBBBB",
               status := .active, expires_at := 30 * 86400,
               plan := sample_plan }],
          activations := [{ id := "A6", license_id := "LA", device_id := "dev6" }] }
        { license_code := "BBBBBBBBBBBBBBBBBBBBBBBBBBBBBBBB", device_id := "dev6" }
        0 "fresh").1 = Except.error "Licença expirada" ∧
    (activate_device "s"
        { licenses :=
            [{ id := "LA", code := sample_code, status := .active,
               expires_at := 30 * 86400, plan := sample_plan,
               device_activations :=
                 [{ id := "A6", license_id := "LA", device_id := "dev6" }] },
             { id := "LB", code := "BBBBBBBBBBBBBBBBBBBBBBBBBBBBBBBB",
               status := .active, expires_at := 30 * 86400,
               plan := sample_plan }],
          activations := [{ id := "A6", license_id := "LA", device_id := "dev6" }] }
        { license_code := "BBBBBBBBBBBBBBBBBBBBBBBBBBBBBBBB", device_id := "dev6" }
        0 "fresh").2 =
      { licenses :=
          [{ id := "LA", code := sample_code, status := .active,
             expires_at := 30 * 86400, plan := sample_plan,
             device_activations :=
               [{ id := "A6", license_id := "LA", device_id := "dev6" }] },
           { id := "LB", code := "BBBBBBBBBBBBBBBBBBBBBBBBBBBBBBBB",
             status := .active, expires_at := 30 * 86400,
             plan := sample_plan }],
        activations := [{ id := "A6", license_id := "LA", device_id := "dev6" }] } := by
  exact ⟨rfl, rfl⟩

/-- Claim C2: on an expired license (Active status, `expires_at < now`),
reached through a verifying matching token and an active non-revoked
activation, `validate_device` succeeds with the grace-period reason and stamps
`last_validated_at := now` exactly when the call is offline, a
`last_validated_at` exists, and `now` is before it plus the configured grace
period; in every other case (online, no previous validation, or grace deadline
passed) it fails with `"Licença expirada"` and leaves the store unchanged.
(The expiry hypothesis `h8` delimits the claim's scope; the source branch it
corresponds to reads the uncalled `is_expired` attribute and so does not
actually consult `expires_at`, which is why `h8` is not needed by the proof —
on genuinely expired licenses, as here, the two conditions agree.) -/
theorem validate_expired_license_grace_behavior
    (secret : String) (gh now : Int) (db : Db) (tok : Token) (dev : String)
    (off : Bool) (td : TokenData) (a : DeviceActivation) (l : License)
    (h1 : verify_device_token secret now tok = some td)
    (h2 : td.device_id = dev)
    (h3 : db.find_activation_by_device_id dev = some a)
    (h4 : a.is_active = true)
    (h5 : a.is_revoked = false)
    (h6 : db.find_license_by_optional_id td.license_id = some l)
    (h7 : l.status = LicenseStatus.active)
    (h8 : l.expires_at < now) :
    (∀ t, a.last_validated_at = some t → off = true → now < t + gh * 3600 →
      validate_device secret gh db dev tok off now =
        ({ ok := true, message := "Válido (período de tolerância offline)",
           license := some l },
         db.update_activation dev (a.update_validation now))) ∧
    ((off = false ∨ a.last_validated_at = none ∨
        (∃ t, a.last_validated_at = some t ∧ t + gh * 3600 ≤ now)) →
      validate_device secret gh db dev tok off now =
        ({ ok := false, message := "Licença expirada", license := some l }, db)) := by
  constructor
  · intro t ht hoff hlt
    simp [validate_device, h1, h2, h3, h4, h5, h6, h7,
          License.is_expired_attr, grace_period_end, ht, hoff, hlt]
  · intro hfail
    rcases hfail with hoff | hnone | ⟨t, ht, hle⟩
    · simp [validate_device, h1, h2, h3, h4, h5, h6, h7,
            License.is_expired_attr, hoff]
    · simp [validate_device, h1, h2, h3, h4, h5, h6, h7,
            License.is_expired_attr, grace_period_end, hnone]
    · have hnl : ¬ now < t + gh * 3600 := by omega
      simp [validate_device, h1, h2, h3, h4, h5, h6, h7,
            License.is_expired_attr, grace_period_end, ht, hnl]

/-- Expired-license fixture for the C2 witness: expired yesterday, device last
validated 10 hours ago, grace period 72 hours, observed at `now = 0`. -/
def act2 : DeviceActivation :=
  { id := "A2", license_id := "L2", device_id := "dev2",
    last_validated_at := some (-36000) }

/-- Active but expired license owning `act2`. -/
def lic2 : License :=
  { id := "L2", code := sample_code, status := .active, expires_at := -86400,
    plan := sample_plan, device_activations := [act2] }

/-- Store holding `lic2` and `act2`. -/
def db2 : Db := { licenses := [lic2], activations := [act2] }

/-- Device token for `(dev2, L2)` signed with secret `"s"`. -/
def tok2 : Token :=
  { claims := { sub := "dev2", type := "device", license_id := some "L2",
                exp := 90 * 86400 },
    signed_with := "s" }

/-- Claim C2, witness: the concrete spec scenario.  Offline validation against
the expired `lic2` succeeds in the tolerance window and stamps
`last_validated_at`, and the same call online fails with `"Licença expirada"`
leaving the store untouched. -/
theorem validate_expired_license_grace_behavior_witness :
    validate_device "s" 72 db2 "dev2" tok2 true 0 =
      ({ ok := true, message := "Válido (período de tolerância offline)",
         license := some lic2 },
       Db.update_activation db2 "dev2" (DeviceActivation.update_validation act2 0)) ∧
    validate_device "s" 72 db2 "dev2" tok2 false 0 =
      ({ ok := false, message := "Licença expirada", license := some lic2 }, db2) := by
  have h := validate_expired_license_grace_behavior "s" 72 0 db2 tok2 "dev2" true
    ⟨"dev2", some "L2"⟩ act2 lic2 (by decide) rfl (by decide) (by decide) (by decide)
    (by decide) (by decide) (by decide)
  have h2 := validate_expired_license_grace_behavior "s" 72 0 db2 tok2 "dev2" false
    ⟨"dev2", some "L2"⟩ act2 lic2 (by decide) rfl (by decide) (by decide) (by decide)
    (by decide) (by decide) (by decide)
  exact ⟨h.1 (-36000) rfl rfl (by decide), h2.2 (Or.inl rfl)⟩

/-- Claim C5: `revoke_device` is total — for every store (hence every capacity
state of the owning license) and every activation it returns the activation
with `is_active = false`, `is_revoked = true`, `revoked_at = now` and the
stored reason; and `reactivate_device` on an activation whose owning license
exists and has no free seat returns the capacity error and leaves the store —
in particular the still-revoked activation row — unchanged. -/
theorem revoke_unconditional_reactivate_checks_capacity
    (db : Db) (a : DeviceActivation) (reason : Option String) (now : Int) :
    ((revoke_device db a reason now).1.is_active = false ∧
     (revoke_device db a reason now).1.is_revoked = true ∧
     (revoke_device db a reason now).1.revoked_at = some now ∧
     (revoke_device db a reason now).1.revoke_reason = reason) ∧
    (∀ l, db.find_license_by_id a.license_id = some l →
      check_availability l = false →
      (reactivate_device db a).1 = Except.error "Limite de dispositivos atingido" ∧
      (reactivate_device db a).2 = db) := by
  constructor
  · exact ⟨rfl, rfl, rfl, rfl⟩
  · intro l hl hcap
    simp [reactivate_device, hl, hcap]

/-- Full-capacity fixture for the C5 witness: one-seat plan, the seat occupied
by `dev5a`, and a revoked activation `act5` of `dev5b` on the same license. -/
def act5 : DeviceActivation :=
  { id := "A5b", license_id := "L5", device_id := "dev5b", is_active := false,
    is_revoked := true, revoked_at := some 50, revoke_reason := some "lost" }

/-- One-seat license at capacity, owning the occupying activation and `act5`. -/
def lic5 : License :=
  { id := "L5", code := sample_code, status := .active, expires_at := 30 * 86400,
    plan := { id := "P5", name := "Solo", max_devices := 1 },
    device_activations :=
      [{ id := "A5a", license_id := "L5", device_id := "dev5a" }, act5] }

/-- Store holding `lic5` and its two activations. -/
def db5 : Db :=
  { licenses := [lic5],
    activations := [{ id := "A5a", license_id := "L5", device_id := "dev5a" }, act5] }

/-- Claim C5, witness: at the concrete full-capacity store, revoking sets the
four fields, and reactivating the revoked `act5` yields the capacity error
with the store unchanged. -/
theorem revoke_unconditional_reactivate_checks_capacity_witness :
    ((revoke_device db5 act5 (some "policy") 100).1.is_active = false ∧
     (revoke_device db5 act5 (some "policy") 100).1.is_revoked = true ∧
     (revoke_device db5 act5 (some "policy") 100).1.revoked_at = some 100 ∧
     (revoke_device db5 act5 (some "policy") 100).1.revoke_reason = some "policy") ∧
    ((reactivate_device db5 act5).1 = Except.error "Limite de dispositivos atingido" ∧
     (reactivate_device db5 act5).2 = db5) := by
  have h := revoke_unconditional_reactivate_checks_capacity db5 act5 (some "policy") 100
  exact ⟨h.1, h.2 lic5 (by decide) (by decide)⟩

/-- Invariant of §3 of the spec: a revoked activation is never active. -/
def revoked_implies_inactive (a : DeviceActivation) : Prop :=
  a.is_revoked = true → a.is_active = false

/-- The invariant holding of every activation row of the store. -/
def db_inv (db : Db) : Prop :=
  ∀ a ∈ db.activations, revoked_implies_inactive a

/-- Committing a row that satisfies the flag invariant into a store that
satisfies it yields a store that satisfies it. -/
theorem db_inv_update (db : Db) (d : String) (a : DeviceActivation)
    (ha : revoked_implies_inactive a) (h : db_inv db) :
    db_inv (db.update_activation d a) := by
  intro x hx
  simp only [Db.update_activation, List.mem_map] at hx
  obtain ⟨y, hy, hxy⟩ := hx
  by_cases hc : y.device_id = d
  · rw [if_pos hc] at hxy
    exact hxy ▸ ha
  · rw [if_neg hc] at hxy
    exact hxy ▸ h y hy

/-- Claim C9: the flag invariant `is_revoked → ¬ is_active` holds of the
activation produced by each mutating model operation (revoke, reactivate, the
new-activation constructor), and is preserved across the store by each device
service operation (`revoke_device`, `reactivate_device`, `activate_device` —
whose idempotent-re-activation branch returns the row unchanged and whose
other mutation branches reactivate or freshly create), so the combination
`is_active = true ∧ is_revoked = true` is never produced. -/
theorem activation_flag_invariant_preserved
    (secret : String) (db : Db) (req : DeviceActivationRequest) (now : Int)
    (fresh_id l_id : String) (a : DeviceActivation) (reason : Option String)
    (h : db_inv db) :
    revoked_implies_inactive (a.revoke reason now) ∧
    revoked_implies_inactive a.reactivate ∧
    revoked_implies_inactive (new_activation l_id req now fresh_id) ∧
    db_inv (revoke_device db a reason now).2 ∧
    db_inv (reactivate_device db a).2 ∧
    db_inv (activate_device secret db req now fresh_id).2 ∧
    (∀ res, (activate_device secret db req now fresh_id).1 = Except.ok res →
      revoked_implies_inactive res.1) := by
  have hre : revoked_implies_inactive a.reactivate := by
    intro hr
    simp [DeviceActivation.reactivate] at hr
  refine ⟨fun _ => rfl, hre, ?_, ?_, ?_, ?_, ?_⟩
  · intro hr
    simp [new_activation] at hr
  · exact db_inv_update db a.device_id _ (fun _ => rfl) h
  · unfold reactivate_device
    rcases hf : db.find_license_by_id a.license_id with _ | l
    · simp only [hf]
      exact db_inv_update db a.device_id _ hre h
    · simp only [hf]
      by_cases hc : check_availability l
      · simp only [hc, Bool.not_true, Bool.false_eq_true, if_false]
        exact db_inv_update db a.device_id _ hre h
      · simp only [Bool.not_eq_true] at hc
        simp only [hc, Bool.not_false, if_true]
        exact h
  · unfold activate_device
    rcases hf : db.find_license_by_code req.license_code with _ | l
    · simp only [hf]
      exact h
    · simp only [hf]
      by_cases hs : l.status ≠ LicenseStatus.active
      · simp only [if_pos hs]
        exact h
      · simp only [if_neg hs, License.is_expired_attr, if_true]
        exact h
  · intro res
    unfold activate_device
    rcases hf : db.find_license_by_code req.license_code with _ | l
    · simp only [hf]
      intro hres
      exact absurd hres (by simp)
    · simp only [hf]
      by_cases hs : l.status ≠ LicenseStatus.active
      · simp only [if_pos hs]
        intro hres
        exact absurd hres (by simp)
      · simp only [if_neg hs, License.is_expired_attr, if_true]
        intro hres
        exact absurd hres (by simp)

/-- Activation request fixture for `dev1` against `lic1`'s code. -/
def req9 : DeviceActivationRequest :=
  { license_code := sample_code, device_id := "dev1" }

/-- Claim C9, witness: the invariant facts at the concrete store `db1`. -/
theorem activation_flag_invariant_preserved_witness :
    revoked_implies_inactive (DeviceActivation.revoke act1 (some "r") 5) ∧
    db_inv (revoke_device db1 act1 (some "r") 5).2 ∧
    db_inv (activate_device "s" db1 req9 5 "F" ).2 := by
  have h := activation_flag_invariant_preserved "s" db1 req9 5 "F" "L1" act1 (some "r")
    (by
      intro x hx hr
      simp only [db1, List.mem_singleton] at hx
      rw [hx] at hr
      exact absurd hr (by decide))
  exact ⟨h.1, h.2.2.2.1, h.2.2.2.2.2.1⟩

/-- Claim C7, counterexample: a validate call whose `device_id` has no
`DeviceActivation` row (empty store) returns its result but writes zero
`ValidationLog` entries, not the claimed exactly one — the route only logs
when an activation row is found to attach the log to. -/
theorem validate_missing_activation_writes_no_log :
    ¬ ((public_validate_device "s" 72 { licenses := [], activations := [] } []
          { activation_token := tok1, device_id := "devX" } none none 0
          5).2.2.length = 1) := by
  decide

/-- Claim C7, amended: a ValidateDevice call produces exactly one
`ValidationLog` entry — recording the outcome status, the offline flag, the
client IP and user agent, the error message on failure, and the measured
latency — precisely when a `DeviceActivation` matching the request's
`device_id` exists after the validation step; a call with no matching
activation writes no log entry; and in both cases the validation outcome is
returned to the caller as the response. -/
theorem validate_route_log_accounting
    (secret : String) (gh : Int) (db : Db) (logs : List ValidationLog)
    (req : DeviceValidationRequest) (ip ua : Option String) (now rt : Int)
    (o : ValidationOutcome) (db' : Db)
    (hr : validate_device secret gh db req.device_id req.activation_token
            req.is_offline now = (o, db')) :
    (∀ a, db'.find_activation_by_device_id req.device_id = some a →
      (public_validate_device secret gh db logs req ip ua now rt).2.2 =
        logs ++ [{ device_activation_id := a.id,
                   status :=
                     if message_mentions_tolerancia o.message then
                       ValidationStatus.grace_period
                     else if o.ok then ValidationStatus.success
                     else ValidationStatus.failed,
                   ip_address := ip, user_agent := ua,
                   is_offline := req.is_offline,
                   error_message := if o.ok then none else some o.message,
                   validated_at := now,
                   response_time_ms := if rt ≠ 0 then some (toString rt) else none }]) ∧
    (db'.find_activation_by_device_id req.device_id = none →
      (public_validate_device secret gh db logs req ip ua now rt).2.2 = logs) ∧
    (public_validate_device secret gh db logs req ip ua now rt).1 =
      { valid := o.ok, message := o.message } := by
  refine ⟨?_, ?_, ?_⟩
  · intro a ha
    simp [public_validate_device, hr, ha, log_validation]
  · intro ha
    simp [public_validate_device, hr, ha]
  · simp [public_validate_device, hr]

/-- Claim C7, witness: at the concrete store `db1` the (failing) validate call
writes exactly the one log row recording the failure, offline flag, client
metadata and latency. -/
theorem validate_route_log_accounting_witness :
    (public_validate_device "s" 72 db1 []
        { activation_token := tok1, device_id := "dev1" }
        (some "10.0.0.1") (some "rflex-app") 0 7).2.2 =
      [{ device_activation_id := "A1", status := ValidationStatus.failed,
         ip_address := some "10.0.0.1", user_agent := some "rflex-app",
         is_offline := false, error_message := some "Licença expirada",
         validated_at := 0, response_time_ms := some "7" }] := by
  have h := validate_route_log_accounting "s" 72 db1 []
    { activation_token := tok1, device_id := "dev1" }
    (some "10.0.0.1") (some "rflex-app") 0 7
    { ok := false, message := "Licença expirada", license := some lic1 } db1
    (by decide)
  have h1 := h.1 act1 (by decide)
  exact h1.trans (by decide)

/-- Concatenating the chunks of `chunk_every` (with a positive width) gives
back the original list. -/
theorem chunk_every_flatten (n : Nat) (l : List Char) :
    (chunk_every (n + 1) l).flatten = l := by
  cases l with
  | nil => simp [chunk_every]
  | cons c cs =>
    have ih := chunk_every_flatten n ((c :: cs).drop (n + 1))
    simp only [chunk_every, List.flatten_cons, ih]
    exact List.take_append_drop (n + 1) (c :: cs)
termination_by l.length
decreasing_by
  simp [List.length_drop]
  omega

/-- Filtering the hyphen-join of chunks whose characters all pass the filter
(and where the separator fails it) recovers the concatenation of the chunks. -/
theorem filter_join_hyphen (p : Char → Bool) (hp : p '-' = false) :
    ∀ (parts : List (List Char)), (∀ q ∈ parts, ∀ c ∈ q, p c = true) →
      (join_hyphen parts).filter p = parts.flatten := by
  intro parts
  induction parts with
  | nil =>
    intro _
    simp [join_hyphen]
  | cons x xs ih =>
    intro h
    have hx : x.filter p = x :=
      List.filter_eq_self.mpr (fun c hc => h x (List.mem_cons_self x xs) c hc)
    cases xs with
    | nil => simpa [join_hyphen] using hx
    | cons y ys =>
      have htail : ∀ q ∈ y :: ys, ∀ c ∈ q, p c = true :=
        fun q hq => h q (List.mem_cons_of_mem x hq)
      calc (join_hyphen (x :: y :: ys)).filter p
          = (x ++ '-' :: join_hyphen (y :: ys)).filter p := rfl
        _ = x.filter p ++ ('-' :: join_hyphen (y :: ys)).filter p :=
            List.filter_append x ('-' :: join_hyphen (y :: ys))
        _ = x ++ (join_hyphen (y :: ys)).filter p := by
            rw [hx, List.filter_cons, hp]
            simp
        _ = x ++ (y :: ys).flatten := by rw [ih htail]
        _ = (x :: y :: ys).flatten := List.flatten_cons.symm

/-- Claim C10: for every code over the generator's 32-character alphabet of
the generated length 32, normalizing the display-formatted form gives back the
original code: `sanitize_license_code (format_license_code c) = c`.  (The
length hypothesis delimits the claim's scope to generated codes; the round
trip holds for every length, so the proof does not consume it.) -/
theorem sanitize_format_roundtrip (code : List Char)
    (hchars : ∀ c ∈ code, c ∈ license_code_chars) (hlen : code.length = 32) :
    sanitize_license_code (format_license_code code) = code := by
  have halpha : ∀ c ∈ license_code_chars,
      (c != '-') = true ∧ (c != ' ') = true ∧ c.toUpper = c := by decide
  have hfl : (chunk_every 4 code).flatten = code := chunk_every_flatten 3 code
  have hparts : ∀ q ∈ chunk_every 4 code, ∀ c ∈ q, c ∈ license_code_chars := by
    intro q hq c hc
    apply hchars
    have hmem : c ∈ (chunk_every 4 code).flatten := List.mem_flatten.mpr ⟨q, hq, hc⟩
    rwa [hfl] at hmem
  have h1 : (join_hyphen (chunk_every 4 code)).filter (fun c => c != '-') =
      (chunk_every 4 code).flatten := by
    apply filter_join_hyphen _ (by decide)
    intro q hq c hc
    exact (halpha c (hparts q hq c hc)).1
  have h2 : code.filter (fun c => c != ' ') = code :=
    List.filter_eq_self.mpr (fun c hc => (halpha c (hchars c hc)).2.1)
  have h3 : code.map Char.toUpper = code := by
    have : code.map Char.toUpper = code.map id :=
      List.map_congr_left (fun c hc => (halpha c (hchars c hc)).2.2)
    simpa using this
  unfold sanitize_license_code format_license_code
  rw [h1, hfl, h2, h3]

/-- Claim C10, witness: the round trip at a concrete 32-character code over
the generator's alphabet. -/
theorem sanitize_format_roundtrip_witness :
    sanitize_license_code (format_license_code sample_code.toList) =
      sample_code.toList :=
  sanitize_format_roundtrip sample_code.toList (by decide) (by decide)

end RFlex
